import Mathlib

/-!
Verification of the playback-configuration and gesture logic of the
mobile video optimization repository.  The embedded definitions follow
the two source components: the player embed host (MuxPlayer.tsx) and the
modal (VideoPlaybackModal.tsx).

TypeScript string unions are modelled by `String` values, because the
runtime values really are plain strings (the casts in the source are
unchecked).  The 300 ms double-tap window is modelled with `Nat`
timestamps.  Fallible asynchronous browser calls are modelled by
`Option (Except String Unit)`: `none` stands for an unavailable API
(optional chaining skips the call), `some (Except.ok ())` for success
and `some (Except.error e)` for an asynchronous rejection.
-/

/-- Embeds `getOptimalMaxResolution` of MuxPlayer.tsx.  The source is a
switch on the `networkConnection` state string with cases slow-2g and 2g
giving 480p, 3g giving 720p, 4g giving 1080p, and a default case giving
720p on mobile and 1080p otherwise. -/
def getOptimalMaxResolution (networkConnection : String) (isMobile : Bool) : String :=
  if networkConnection = "slow-2g" ∨ networkConnection = "2g" then "480p"
  else if networkConnection = "3g" then "720p"
  else if networkConnection = "4g" then "1080p"
  else if isMobile then "720p" else "1080p"

/-- Embeds `getPreloadStrategy` of MuxPlayer.tsx: metadata on mobile
with a slow connection, metadata on mobile otherwise, and auto on
desktop. -/
def getPreloadStrategy (isMobile : Bool) (networkConnection : String) : String :=
  if isMobile ∧ (networkConnection = "slow-2g" ∨ networkConnection = "2g") then "metadata"
  else if isMobile then "metadata"
  else "auto"

/-- Models the JavaScript expression `raw || "unknown"` applied to a
connection field: `none` stands for a missing property (undefined) and
the empty string is also falsy, so both fall back to unknown. -/
def defaultToUnknown (raw : Option String) : String :=
  match raw with
  | none => "unknown"
  | some s => if s = "" then "unknown" else s

/-- The connection-quality signals the execution environment may offer:
`connection` carries `navigator.connection.effectiveType` when
`navigator.connection` exists, and `mozConnection` carries
`navigator.mozConnection.type` when that fallback object exists. -/
structure NetworkSignals where
  connection : Option (Option String)
  mozConnection : Option (Option String)
deriving DecidableEq

/-- Embeds `detectNetwork` of MuxPlayer.tsx.  When `navigator.connection`
exists the state is set to `effectiveType || "unknown"`; otherwise, when
`navigator.mozConnection` exists, to `type || "unknown"`; otherwise no
setter runs and the state keeps its current value.  The function is
total: no branch can throw. -/
def detectNetwork (env : NetworkSignals) (current : String) : String :=
  match env.connection with
  | some effectiveType => defaultToUnknown effectiveType
  | none =>
    match env.mozConnection with
    | some connType => defaultToUnknown connType
    | none => current

/-- The initial value of the `networkConnection` React state in
MuxPlayer.tsx (`useState<NetworkConnection>("unknown")`). -/
def initialNetworkConnection : String := "unknown"

/-- The five values of the declared `NetworkConnection` string union in
MuxPlayer.tsx. -/
def networkTierValues : List String := ["4g", "3g", "2g", "slow-2g", "unknown"]

/-- Models the JavaScript `String.prototype.includes` substring test. -/
def strIncludes (s pat : String) : Bool :=
  decide (pat.toList <:+: s.toList)

/-- The alternatives of the mobile user-agent regular expression shared
by MuxPlayer.tsx and VideoPlaybackModal.tsx, in lowercase because the
regular expression carries the case-insensitive flag. -/
def mobileUserAgentPatterns : List String :=
  ["android", "webos", "iphone", "ipad", "ipod", "blackberry", "iemobile", "opera mini"]

/-- The code point of a character with ASCII uppercase folded to
lowercase, giving the case-insensitive comparison of the regular
expression flag i. -/
def lowerCode (c : Char) : Nat :=
  if 65 ≤ c.toNat ∧ c.toNat ≤ 90 then c.toNat + 32 else c.toNat

/-- Case-insensitive character comparison. -/
def charEqCI (a b : Char) : Bool :=
  decide (lowerCode a = lowerCode b)

/-- Case-insensitive prefix test of a pattern against a text. -/
def isPrefixCI : List Char → List Char → Bool
  | [], _ => true
  | _ :: _, [] => false
  | a :: as, b :: bs => charEqCI a b && isPrefixCI as bs

/-- Case-insensitive substring search of a pattern in a text. -/
def containsCI (pat : List Char) : List Char → Bool
  | [] => pat.isEmpty
  | c :: rest => isPrefixCI pat (c :: rest) || containsCI pat rest

/-- Models the case-insensitive test of the mobile user-agent regular
expression against a user-agent string: some alternative occurs as a
case-insensitive substring. -/
def mobileUserAgentTest (userAgent : String) : Bool :=
  mobileUserAgentPatterns.any (fun pat => containsCI pat.toList userAgent.toList)

/-- Embeds `checkMobile` of MuxPlayer.tsx: the device is classified as
mobile when the user agent matches the mobile pattern or the viewport
width is at most 768 pixels. -/
def checkMobile (userAgent : String) (innerWidth : Nat) : Bool :=
  mobileUserAgentTest userAgent || decide (innerWidth ≤ 768)

/-- Embeds the `isMobile` computation of VideoPlaybackModal.tsx, which
uses the user-agent test alone, without the viewport-width clause. -/
def modalIsMobile (userAgent : String) : Bool :=
  mobileUserAgentTest userAgent

/-- The modal renders its desktop header row (title plus close button)
exactly when its own `isMobile` flag is false. -/
def modalShowsDesktopHeader (userAgent : String) : Bool :=
  !(modalIsMobile userAgent)

/-- The character class `[a-zA-Z0-9]` of the playback-id extraction
regular expression in VideoPlaybackModal.tsx. -/
def isAlnumChar (c : Char) : Bool :=
  c.isAlpha || c.isDigit

/-- The host marker tested by `content_url.includes` in
VideoPlaybackModal.tsx. -/
def muxHostMarker : String := "stream.mux.com"

/-- Models the JavaScript regular-expression search for the pattern
consisting of the literal text stream.mux.com/ followed by one or more
alphanumeric characters.  The engine tries each start position from the
left; at the first position where the literal matches and at least one
alphanumeric character follows, the greedy capture group takes the
maximal alphanumeric run. -/
def muxScan : List Char → Option (List Char)
  | [] => none
  | c :: rest =>
    if ("stream.mux.com/".toList) <+: (c :: rest) then
      if ((c :: rest).drop ("stream.mux.com/".toList.length)).takeWhile isAlnumChar = [] then
        muxScan rest
      else
        some (((c :: rest).drop ("stream.mux.com/".toList.length)).takeWhile isAlnumChar)
    else muxScan rest

/-- The capture of the playback-id regular expression on a content URL,
as a string, when the pattern matches anywhere in the URL. -/
def muxExtract (contentUrl : String) : Option String :=
  (muxScan contentUrl.toList).map (fun seg => String.mk seg)

/-- Embeds `getPlaybackId` of VideoPlaybackModal.tsx.  An empty URL is
falsy and yields the empty id; a URL containing the host marker yields
the regular-expression capture, or the empty id when the pattern does
not match; a URL without the scheme delimiter is returned unchanged;
anything else yields the empty id. -/
def getPlaybackId (contentUrl : String) : String :=
  if contentUrl = "" then ""
  else if strIncludes contentUrl muxHostMarker then
    match muxExtract contentUrl with
    | some pid => pid
    | none => ""
  else if strIncludes contentUrl "://" = false then contentUrl
  else ""

/-- The modal mounts the player exactly when the extracted playback id
is truthy, that is nonempty. -/
def modalAttemptsPlayback (contentUrl : String) : Bool :=
  getPlaybackId contentUrl != ""

/-- The modal renders the visible message about an unextractable
playback id exactly when it does not mount the player. -/
def modalShowsNoPlayableState (contentUrl : String) : Bool :=
  !(modalAttemptsPlayback contentUrl)

/-- The two fullscreen operations the double-tap handler can attempt. -/
inductive FsAction where
  | requestFs
  | exitFs
deriving DecidableEq

/-- The direction of the fullscreen toggle chosen by the second-tap
branch of `handlePlayerDoubleClick`: request fullscreen when
`document.fullscreenElement` is empty, exit fullscreen otherwise. -/
def fullscreenToggle (fullscreenElement : Bool) : FsAction :=
  if !fullscreenElement then FsAction.requestFs else FsAction.exitFs

/-- Models the fullscreen toggle block of `handlePlayerDoubleClick`,
lines 386 to 394 of MuxPlayer.tsx.  The chosen request is invoked
through optional chaining (`none` means the API is absent and nothing
runs) and its promise rejection is consumed by a `catch` handler that
only writes a console warning, so the function returns normally on
every outcome: nothing propagates as an exception. -/
def attemptFsToggle (fullscreenElement : Bool)
    (requestOutcome exitOutcome : Option (Except String Unit)) :
    FsAction × List String :=
  if !fullscreenElement then
    (FsAction.requestFs,
      match requestOutcome with
      | some (Except.error e) => ["Fullscreen request failed: " ++ e]
      | _ => [])
  else
    (FsAction.exitFs,
      match exitOutcome with
      | some (Except.error e) => ["Exit fullscreen failed: " ++ e]
      | _ => [])

/-- Embeds `handlePlayerDoubleClick` of MuxPlayer.tsx for a tap at time
`t`.  The state `armedAt = some t0` means `doubleClickTimeoutRef` holds
the timer armed by a tap at time `t0`; the ref is still non-null at
time `t` exactly when the 300 ms timer has not yet fired, that is when
`t < t0 + 300` (when it has fired, its callback already reset the ref
to null, so the tap takes the arming branch).  The result is the new
ref state, the fullscreen actions attempted, and the console warnings
written. -/
def handlePlayerDoubleClick (containerPresent fullscreenElement : Bool)
    (requestOutcome exitOutcome : Option (Except String Unit))
    (armedAt : Option Nat) (t : Nat) :
    Option Nat × List FsAction × List String :=
  if !containerPresent then (armedAt, [], [])
  else
    match armedAt with
    | some t0 =>
      if t < t0 + 300 then
        let r := attemptFsToggle fullscreenElement requestOutcome exitOutcome
        (none, [r.1], r.2)
      else (some t, [], [])
    | none => (some t, [], [])

/-- The body of the 300 ms timer armed by a first tap: it only resets
`doubleClickTimeoutRef` to null; it emits no signal and attempts no
fullscreen action. -/
def doubleClickTimerCallback (_armedAt : Option Nat) : Option Nat × List FsAction :=
  (none, [])

/-- Runs `handlePlayerDoubleClick` over a list of tap times, collecting
every fullscreen action attempted. -/
def runTaps (containerPresent fullscreenElement : Bool)
    (requestOutcome exitOutcome : Option (Except String Unit))
    (armedAt : Option Nat) : List Nat → Option Nat × List FsAction
  | [] => (armedAt, [])
  | t :: rest =>
    let step := handlePlayerDoubleClick containerPresent fullscreenElement
      requestOutcome exitOutcome armedAt t
    let r := runTaps containerPresent fullscreenElement requestOutcome exitOutcome
      step.1 rest
    (r.1, step.2.1 ++ r.2)

/-- The resources MuxPlayer.tsx holds while mounted: the four listener
registrations and the script-check timer released by the `useEffect`
cleanups, plus the double-tap timer ref (`some t0` when a timer armed
at `t0` is pending). -/
structure ComponentResources where
  resizeListener : Bool
  networkListener : Bool
  fullscreenListener : Bool
  scriptCheckTimer : Bool
  playerListeners : Bool
  doubleClickTimerRef : Option Nat
deriving DecidableEq

/-- Embeds the effect cleanups that run on unmount of MuxPlayer.tsx:
they remove the resize, network, fullscreenchange and player listeners
and clear the script-check timer.  No cleanup in the source touches
`doubleClickTimeoutRef`, so that field is left as it was. -/
def unmountCleanup (r : ComponentResources) : ComponentResources :=
  { r with
    resizeListener := false
    networkListener := false
    fullscreenListener := false
    scriptCheckTimer := false
    playerListeners := false }

/-- The player lifecycle events relevant to view tracking. -/
inductive PlayerEvent where
  | play
  | pause
deriving DecidableEq

/-- The slice of MuxPlayer.tsx React state touched by the play and
pause handlers. -/
structure SessionState where
  isPlaying : Bool
  hasTrackedView : Bool
deriving DecidableEq

/-- Both state cells start false (`useState(false)`). -/
def initialSession : SessionState := { isPlaying := false, hasTrackedView := false }

/-- Embeds `handlePlay` of MuxPlayer.tsx: it always sets `isPlaying`,
and when the view is untracked and the `onViewTracked` callback was
provided it marks the view tracked and invokes the callback once (the
second component counts the invocations). -/
def handlePlay (hasCallback : Bool) (s : SessionState) : SessionState × Nat :=
  if s.hasTrackedView = false ∧ hasCallback = true then
    ({ isPlaying := true, hasTrackedView := true }, 1)
  else ({ s with isPlaying := true }, 0)

/-- Embeds `handlePause` of MuxPlayer.tsx: it only clears `isPlaying`. -/
def handlePause (s : SessionState) : SessionState × Nat :=
  ({ s with isPlaying := false }, 0)

/-- Dispatches one player lifecycle event to its handler. -/
def sessionStep (hasCallback : Bool) (s : SessionState) :
    PlayerEvent → SessionState × Nat
  | PlayerEvent.play => handlePlay hasCallback s
  | PlayerEvent.pause => handlePause s

/-- Runs a playback session over a list of lifecycle events, counting
the `onViewTracked` invocations. -/
def runSession (hasCallback : Bool) (s : SessionState) :
    List PlayerEvent → SessionState × Nat
  | [] => (s, 0)
  | e :: rest =>
    let step := sessionStep hasCallback s e
    let r := runSession hasCallback step.1 rest
    (r.1, step.2 + r.2)

/-- C1: for every device class the max-resolution selection maps the
tiers slow-2g and 2g to 480p, 3g to 720p, 4g to 1080p, and the unknown
tier to 720p on mobile and 1080p on desktop. -/
theorem C1_max_resolution_table (isMobile : Bool) :
    getOptimalMaxResolution "slow-2g" isMobile = "480p"
    ∧ getOptimalMaxResolution "2g" isMobile = "480p"
    ∧ getOptimalMaxResolution "3g" isMobile = "720p"
    ∧ getOptimalMaxResolution "4g" isMobile = "1080p"
    ∧ getOptimalMaxResolution "unknown" true = "720p"
    ∧ getOptimalMaxResolution "unknown" false = "1080p" := by
  cases isMobile <;> decide

/-- C2: the preload strategy is metadata on mobile and auto on desktop,
for every network tier string, so it never depends on the tier. -/
theorem C2_preload_device_only (networkConnection : String) :
    getPreloadStrategy true networkConnection = "metadata"
    ∧ getPreloadStrategy false networkConnection = "auto" := by
  constructor
  · unfold getPreloadStrategy
    by_cases h : True ∧ (networkConnection = "slow-2g" ∨ networkConnection = "2g") <;>
      simp_all
  · unfold getPreloadStrategy
    simp

/-- A successful scan yields a nonempty, fully alphanumeric capture that
follows the literal stream.mux.com/ somewhere inside the scanned text. -/
theorem muxScanSound : ∀ (l seg : List Char), muxScan l = some seg →
    seg ≠ [] ∧ (∀ c ∈ seg, isAlnumChar c = true)
      ∧ ("stream.mux.com/".toList ++ seg) <:+: l := by
  intro l
  induction l with
  | nil => intro seg h; simp [muxScan] at h
  | cons c rest ih =>
    intro seg h
    rw [muxScan] at h
    by_cases hp : ("stream.mux.com/".toList) <+: (c :: rest)
    · rw [if_pos hp] at h
      by_cases he :
          ((c :: rest).drop ("stream.mux.com/".toList.length)).takeWhile isAlnumChar = []
      · rw [if_pos he] at h
        obtain ⟨h1, h2, h3⟩ := ih seg h
        obtain ⟨s, t, hst⟩ := h3
        exact ⟨h1, h2, ⟨c :: s, t, by rw [← hst]; rfl⟩⟩
      · rw [if_neg he] at h
        have hseg :
            seg = ((c :: rest).drop ("stream.mux.com/".toList.length)).takeWhile isAlnumChar :=
          (Option.some.inj h).symm
        subst hseg
        refine ⟨he, fun x hx => List.mem_takeWhile_imp hx, ?_⟩
        obtain ⟨u, hu⟩ := hp
        have hdrop : (c :: rest).drop ("stream.mux.com/".toList.length) = u := by
          rw [← hu]; exact List.drop_left _ _
        rw [hdrop]
        obtain ⟨v, hv⟩ := List.takeWhile_prefix (l := u) isAlnumChar
        refine ⟨[], v, ?_⟩
        rw [List.nil_append, List.append_assoc, hv, hu]
    · rw [if_neg hp] at h
      obtain ⟨h1, h2, h3⟩ := ih seg h
      obtain ⟨s, t, hst⟩ := h3
      exact ⟨h1, h2, ⟨c :: s, t, by rw [← hst]; rfl⟩⟩

/-- A successful scan means the host marker occurs in the text. -/
theorem muxScanMarker {l seg : List Char} (h : muxScan l = some seg) :
    muxHostMarker.toList <:+: l := by
  obtain ⟨-, -, h3⟩ := muxScanSound l seg h
  have hpre : muxHostMarker.toList <+: ("stream.mux.com/".toList ++ seg) :=
    (show muxHostMarker.toList <+: "stream.mux.com/".toList by decide).trans ⟨seg, rfl⟩
  exact hpre.isInfix.trans h3

/-- A successful scan needs a nonempty text. -/
theorem muxScanNonnil {l seg : List Char} (h : muxScan l = some seg) : l ≠ [] := by
  intro hl
  subst hl
  simp [muxScan] at h

/-- C3 counterexample: the input stream.mux.com contains no scheme
delimiter and admits no identifier extraction, yet the extraction does
not return it unchanged: it yields the empty id.  Moreover, on a URL
with several path segments the capture is the first alphanumeric
segment after the host, abc, not the trailing segment def. -/
theorem C3_counterexample :
    muxExtract "stream.mux.com" = none
    ∧ strIncludes "stream.mux.com" "://" = false
    ∧ getPlaybackId "stream.mux.com" = ""
    ∧ getPlaybackId "stream.mux.com" ≠ "stream.mux.com"
    ∧ getPlaybackId "https://stream.mux.com/abc/def" = "abc" := by
  refine ⟨by decide, by decide, by decide, by decide, by decide⟩

/-- C3 amended: extraction returns the first alphanumeric path segment
immediately after the host marker stream.mux.com/ when a nonempty one
exists; the whole string unchanged when it contains neither the host
marker nor the scheme delimiter; and the empty id otherwise, also when
the host marker is present but nothing is extractable, in which case
the modal shows the no-playable-identifier state instead of mounting
the player. -/
theorem C3_playback_id_cases (contentUrl : String) :
    (∀ pid, muxExtract contentUrl = some pid →
      getPlaybackId contentUrl = pid
      ∧ pid ≠ ""
      ∧ (∀ c ∈ pid.toList, isAlnumChar c = true)
      ∧ ("stream.mux.com/".toList ++ pid.toList) <:+: contentUrl.toList)
    ∧ (strIncludes contentUrl muxHostMarker = false →
       strIncludes contentUrl "://" = false →
       getPlaybackId contentUrl = contentUrl)
    ∧ (strIncludes contentUrl muxHostMarker = true →
       muxExtract contentUrl = none →
       getPlaybackId contentUrl = "" ∧ modalShowsNoPlayableState contentUrl = true)
    ∧ (strIncludes contentUrl muxHostMarker = false →
       strIncludes contentUrl "://" = true →
       getPlaybackId contentUrl = "" ∧ modalShowsNoPlayableState contentUrl = true) := by
  refine ⟨?_, ?_, ?_, ?_⟩
  · intro pid hpid
    obtain ⟨seg, hseg, hmk⟩ :
        ∃ seg, muxScan contentUrl.toList = some seg ∧ pid = String.mk seg := by
      unfold muxExtract at hpid
      cases hms : muxScan contentUrl.toList with
      | none => rw [hms] at hpid; simp at hpid
      | some s =>
        rw [hms] at hpid
        exact ⟨s, rfl, (Option.some.inj hpid).symm⟩
    subst hmk
    obtain ⟨h1, h2, h3⟩ := muxScanSound _ _ hseg
    have hmark : strIncludes contentUrl muxHostMarker = true := by
      simp only [strIncludes, decide_eq_true_eq]
      exact muxScanMarker hseg
    have hne : contentUrl ≠ "" := by
      intro hc
      subst hc
      exact muxScanNonnil hseg rfl
    have hext : muxExtract contentUrl = some (String.mk seg) := by
      unfold muxExtract
      rw [hseg]
      rfl
    refine ⟨?_, ?_, h2, h3⟩
    · unfold getPlaybackId
      rw [if_neg hne, if_pos hmark, hext]
    · intro hc
      exact h1 (congrArg String.toList hc)
  · intro hm hs
    by_cases hc : contentUrl = ""
    · rw [hc]
      decide
    · unfold getPlaybackId
      rw [if_neg hc, if_neg (by simp [hm]), if_pos hs]
  · intro hm hext
    have hc : contentUrl ≠ "" := by
      intro hc
      rw [hc] at hm
      exact absurd hm (by decide)
    have hid : getPlaybackId contentUrl = "" := by
      unfold getPlaybackId
      rw [if_neg hc, if_pos hm, hext]
    refine ⟨hid, ?_⟩
    unfold modalShowsNoPlayableState modalAttemptsPlayback
    rw [hid]
    decide
  · intro hm hs
    have hid : getPlaybackId contentUrl = "" := by
      by_cases hc : contentUrl = ""
      · rw [hc]
        decide
      · unfold getPlaybackId
        rw [if_neg hc, if_neg (by simp [hm]), if_neg (by simp [hs])]
    refine ⟨hid, ?_⟩
    unfold modalShowsNoPlayableState modalAttemptsPlayback
    rw [hid]
    decide

/-- C3 witness: the three representative inputs of the specification,
evaluated through the amended theorem. -/
theorem C3_playback_id_cases_witness :
    getPlaybackId "https://stream.mux.com/abc123.m3u8" = "abc123"
    ∧ getPlaybackId "abc123" = "abc123"
    ∧ getPlaybackId "https://unrelated.example.com/x" = ""
    ∧ modalShowsNoPlayableState "https://unrelated.example.com/x" = true := by
  refine ⟨?_, ?_, ?_, ?_⟩
  · exact ((C3_playback_id_cases "https://stream.mux.com/abc123.m3u8").1 "abc123"
      (by decide)).1
  · exact (C3_playback_id_cases "abc123").2.1 (by decide) (by decide)
  · exact ((C3_playback_id_cases "https://unrelated.example.com/x").2.2.2
      (by decide) (by decide)).1
  · exact ((C3_playback_id_cases "https://unrelated.example.com/x").2.2.2
      (by decide) (by decide)).2

/-- C4: a single tap with no second tap inside the 300 ms window emits
no signal and the timer callback returns the detector to Idle; two taps
inside the window attempt exactly one fullscreen toggle and leave the
detector Idle. -/
theorem C4_single_and_double_tap (fullscreenElement : Bool)
    (requestOutcome exitOutcome : Option (Except String Unit))
    (t t1 t2 : Nat) (_h1 : t1 ≤ t2) (h2 : t2 < t1 + 300) :
    runTaps true fullscreenElement requestOutcome exitOutcome none [t] = (some t, [])
    ∧ doubleClickTimerCallback (some t) = (none, [])
    ∧ (runTaps true fullscreenElement requestOutcome exitOutcome none [t1, t2]).1 = none
    ∧ (runTaps true fullscreenElement requestOutcome exitOutcome none [t1, t2]).2.length = 1 := by
  refine ⟨?_, rfl, ?_, ?_⟩
  · simp [runTaps, handlePlayerDoubleClick]
  · simp [runTaps, handlePlayerDoubleClick, h2]
  · simp [runTaps, handlePlayerDoubleClick, h2]

/-- C4 witness: a lone tap at time 5 emits nothing and the callback
goes back to Idle; taps at times 0 and 100 emit one toggle attempt and
end Idle. -/
theorem C4_single_and_double_tap_witness :
    runTaps true false none none none [5] = (some 5, [])
    ∧ doubleClickTimerCallback (some 5) = (none, [])
    ∧ (runTaps true false none none none [0, 100]).1 = none
    ∧ (runTaps true false none none none [0, 100]).2.length = 1 := by
  have h := C4_single_and_double_tap false none none 5 0 100 (by decide) (by decide)
  exact ⟨h.1, h.2.1, h.2.2.1, h.2.2.2⟩

/-- C5: three taps with each consecutive pair inside the 300 ms window
attempt exactly one fullscreen toggle; the first two taps pair, the
third arms a fresh cycle whose timer then fires alone, returning the
detector to Idle with no further signal. -/
theorem C5_three_taps_greedy (fullscreenElement : Bool)
    (requestOutcome exitOutcome : Option (Except String Unit))
    (t1 t2 t3 : Nat) (_h1 : t1 ≤ t2) (_h2 : t2 ≤ t3)
    (h3 : t2 < t1 + 300) (_h4 : t3 < t2 + 300) :
    (runTaps true fullscreenElement requestOutcome exitOutcome none [t1, t2, t3]).2.length = 1
    ∧ (runTaps true fullscreenElement requestOutcome exitOutcome none [t1, t2, t3]).1 = some t3
    ∧ doubleClickTimerCallback (some t3) = (none, []) := by
  refine ⟨?_, ?_, rfl⟩
  · simp [runTaps, handlePlayerDoubleClick, h3]
  · simp [runTaps, handlePlayerDoubleClick, h3]

/-- C5 witness: taps at times 0, 100 and 200 emit exactly one toggle
attempt, leave the third tap armed, and its callback ends Idle. -/
theorem C5_three_taps_greedy_witness :
    (runTaps true false none none none [0, 100, 200]).2.length = 1
    ∧ (runTaps true false none none none [0, 100, 200]).1 = some 200
    ∧ doubleClickTimerCallback (some 200) = (none, []) := by
  have h := C5_three_taps_greedy false none none 0 100 200
    (by decide) (by decide) (by decide) (by decide)
  exact ⟨h.1, h.2.1, h.2.2⟩

/-- C7: a completed double-tap clears the timer and attempts exactly
one fullscreen toggle in the right direction; a rejected request only
produces a console warning and the handler returns normally, with no
log at all on success or when the API is absent, so no failure escapes
the component. -/
theorem C7_toggle_once_failure_swallowed (fullscreenElement : Bool)
    (requestOutcome exitOutcome : Option (Except String Unit))
    (t0 t : Nat) (h : t < t0 + 300) :
    (handlePlayerDoubleClick true fullscreenElement requestOutcome exitOutcome
        (some t0) t).1 = none
    ∧ (handlePlayerDoubleClick true fullscreenElement requestOutcome exitOutcome
        (some t0) t).2.1 = [fullscreenToggle fullscreenElement]
    ∧ (∀ e, fullscreenElement = false → requestOutcome = some (Except.error e) →
        (handlePlayerDoubleClick true fullscreenElement requestOutcome exitOutcome
          (some t0) t).2.2 = ["Fullscreen request failed: " ++ e])
    ∧ (∀ e, fullscreenElement = true → exitOutcome = some (Except.error e) →
        (handlePlayerDoubleClick true fullscreenElement requestOutcome exitOutcome
          (some t0) t).2.2 = ["Exit fullscreen failed: " ++ e])
    ∧ (fullscreenElement = false → requestOutcome = some (Except.ok ()) ∨ requestOutcome = none →
        (handlePlayerDoubleClick true fullscreenElement requestOutcome exitOutcome
          (some t0) t).2.2 = [])
    ∧ (fullscreenElement = true → exitOutcome = some (Except.ok ()) ∨ exitOutcome = none →
        (handlePlayerDoubleClick true fullscreenElement requestOutcome exitOutcome
          (some t0) t).2.2 = []) := by
  refine ⟨?_, ?_, ?_, ?_, ?_, ?_⟩
  · simp [handlePlayerDoubleClick, h]
  · cases fullscreenElement <;>
      simp [handlePlayerDoubleClick, attemptFsToggle, fullscreenToggle, h]
  · intro e hf hr
    subst hf
    subst hr
    simp [handlePlayerDoubleClick, attemptFsToggle, h]
  · intro e hf hr
    subst hf
    subst hr
    simp [handlePlayerDoubleClick, attemptFsToggle, h]
  · intro hf hr
    subst hf
    rcases hr with rfl | rfl <;> simp [handlePlayerDoubleClick, attemptFsToggle, h]
  · intro hf hr
    subst hf
    rcases hr with rfl | rfl <;> simp [handlePlayerDoubleClick, attemptFsToggle, h]

/-- C7 witness: a second tap at time 100 on a timer armed at time 0,
outside fullscreen, with the request rejected, attempts exactly the
fullscreen request and only logs the warning. -/
theorem C7_toggle_once_failure_swallowed_witness :
    (handlePlayerDoubleClick true false (some (Except.error "denied")) none
        (some 0) 100).1 = none
    ∧ (handlePlayerDoubleClick true false (some (Except.error "denied")) none
        (some 0) 100).2.1 = [FsAction.requestFs]
    ∧ (handlePlayerDoubleClick true false (some (Except.error "denied")) none
        (some 0) 100).2.2 = ["Fullscreen request failed: denied"] := by
  have h := C7_toggle_once_failure_swallowed false (some (Except.error "denied")) none
    0 100 (by decide)
  refine ⟨h.1, ?_, ?_⟩
  · rw [h.2.1]
    rfl
  · rw [h.2.2.1 "denied" rfl rfl]
    decide

/-- C8 counterexample: after a first tap armed the timer at time 0, the
unmount cleanups leave the double-tap timer pending: no cleanup in the
source clears `doubleClickTimeoutRef`. -/
theorem C8_counterexample :
    (unmountCleanup
      { resizeListener := true
        networkListener := true
        fullscreenListener := true
        scriptCheckTimer := false
        playerListeners := true
        doubleClickTimerRef := some 0 }).doubleClickTimerRef ≠ none := by
  decide

/-- C8 amended: the pending double-tap timer is consumed on successful
pairing, and the unmount cleanups release the four listeners and the
script-check timer but leave the double-tap timer untouched; the
dangling callback that may then fire only resets the handle to null and
performs no action. -/
theorem C8_timer_release (r : ComponentResources) (fullscreenElement : Bool)
    (requestOutcome exitOutcome : Option (Except String Unit))
    (t0 t : Nat) (h : t < t0 + 300) :
    (handlePlayerDoubleClick true fullscreenElement requestOutcome exitOutcome
        (some t0) t).1 = none
    ∧ (unmountCleanup r).doubleClickTimerRef = r.doubleClickTimerRef
    ∧ (unmountCleanup r).resizeListener = false
    ∧ (unmountCleanup r).networkListener = false
    ∧ (unmountCleanup r).fullscreenListener = false
    ∧ (unmountCleanup r).scriptCheckTimer = false
    ∧ (unmountCleanup r).playerListeners = false
    ∧ doubleClickTimerCallback r.doubleClickTimerRef = (none, []) := by
  refine ⟨?_, rfl, rfl, rfl, rfl, rfl, rfl, rfl⟩
  simp [handlePlayerDoubleClick, h]

/-- C8 witness: pairing at times 0 and 100 consumes the timer, and the
unmount cleanups on a state with a timer armed at time 7 release the
listeners while the timer stays pending. -/
theorem C8_timer_release_witness :
    (handlePlayerDoubleClick true false none none (some 0) 100).1 = none
    ∧ (unmountCleanup
        { resizeListener := true
          networkListener := true
          fullscreenListener := true
          scriptCheckTimer := false
          playerListeners := true
          doubleClickTimerRef := some 7 }).doubleClickTimerRef = some 7
    ∧ (unmountCleanup
        { resizeListener := true
          networkListener := true
          fullscreenListener := true
          scriptCheckTimer := false
          playerListeners := true
          doubleClickTimerRef := some 7 }).resizeListener = false := by
  have h := C8_timer_release
    { resizeListener := true
      networkListener := true
      fullscreenListener := true
      scriptCheckTimer := false
      playerListeners := true
      doubleClickTimerRef := some 7 }
    false none none 0 100 (by decide)
  exact ⟨h.1, h.2.1, h.2.2.1⟩

/-- C9 counterexample: with `navigator.connection` absent and
`navigator.mozConnection` reporting the connection type wifi, the
derived tier is the raw string wifi, which is not one of the five
enumerated NetworkConnection values. -/
theorem C9_counterexample :
    detectNetwork { connection := none, mozConnection := some (some "wifi") }
      initialNetworkConnection = "wifi"
    ∧ "wifi" ∉ networkTierValues := by
  refine ⟨rfl, by decide⟩

/-- C9 amended: tier acquisition is a total function; with no signal at
all the tier keeps its initial unknown value; when navigator.connection
answers with a falsy value or a standard effectiveType the derived tier
is one of the five enumerated values; the mozConnection fallback instead
stores the raw connection type unvalidated. -/
theorem C9_tier_acquisition (effectiveType : Option String)
    (moz : Option (Option String)) (current : String) (s : String)
    (he : effectiveType = none ∨ effectiveType = some "" ∨
      (∃ v, effectiveType = some v ∧ v ∈ (["slow-2g", "2g", "3g", "4g"] : List String)))
    (hs : s ≠ "") :
    detectNetwork { connection := none, mozConnection := none }
      initialNetworkConnection = "unknown"
    ∧ detectNetwork { connection := some effectiveType, mozConnection := moz }
        current ∈ networkTierValues
    ∧ detectNetwork { connection := none, mozConnection := some (some s) } current = s := by
  refine ⟨rfl, ?_, ?_⟩
  · simp only [detectNetwork]
    rcases he with rfl | rfl | ⟨v, rfl, hv⟩
    · decide
    · decide
    · have hv4 : v = "slow-2g" ∨ v = "2g" ∨ v = "3g" ∨ v = "4g" := by
        simpa using hv
      rcases hv4 with rfl | rfl | rfl | rfl <;> decide
  · simp [detectNetwork, defaultToUnknown, hs]

/-- C9 witness: no signal keeps unknown, a 4g effectiveType lands in
the enumeration, and a cellular mozConnection type is stored raw. -/
theorem C9_tier_acquisition_witness :
    detectNetwork { connection := none, mozConnection := none }
      initialNetworkConnection = "unknown"
    ∧ detectNetwork { connection := some (some "4g"), mozConnection := none }
        "unknown" ∈ networkTierValues
    ∧ detectNetwork { connection := none, mozConnection := some (some "cellular") }
        "unknown" = "cellular" := by
  exact C9_tier_acquisition (some "4g") none "unknown" "cellular"
    (Or.inr (Or.inr ⟨"4g", rfl, by decide⟩)) (by decide)

/-- Once the view is tracked, no later event emits another view-tracked
signal and the flag stays set. -/
theorem runSessionTracked (evs : List PlayerEvent) :
    ∀ s : SessionState, s.hasTrackedView = true →
      (runSession true s evs).2 = 0
      ∧ (runSession true s evs).1.hasTrackedView = true := by
  induction evs with
  | nil => intro s h; exact ⟨rfl, h⟩
  | cons e rest ih =>
    intro s h
    cases e with
    | play =>
      have hstep : sessionStep true s PlayerEvent.play = ({ s with isPlaying := true }, 0) := by
        simp [sessionStep, handlePlay, h]
      simp only [runSession, hstep]
      have := ih { s with isPlaying := true } h
      simp [this.1, this.2]
    | pause =>
      simp only [runSession, sessionStep, handlePause]
      have := ih { s with isPlaying := false } h
      simp [this.1, this.2]

/-- From an untracked state the number of view-tracked signals over a
session is one if some play event occurs and zero otherwise. -/
theorem runSessionUntracked (evs : List PlayerEvent) :
    ∀ s : SessionState, s.hasTrackedView = false →
      (runSession true s evs).2 = if PlayerEvent.play ∈ evs then 1 else 0 := by
  induction evs with
  | nil => intro s _; simp [runSession]
  | cons e rest ih =>
    intro s h
    cases e with
    | play =>
      have hstep : sessionStep true s PlayerEvent.play =
          ({ isPlaying := true, hasTrackedView := true }, 1) := by
        simp [sessionStep, handlePlay, h]
      simp only [runSession, hstep]
      have := runSessionTracked rest { isPlaying := true, hasTrackedView := true } rfl
      simp [this.1]
    | pause =>
      simp only [runSession, sessionStep, handlePause]
      have := ih { s with isPlaying := false } h
      simp [this, List.mem_cons]

/-- C6: within one session the view-tracked notification fires exactly
once when a play event occurs and never otherwise, for every sequence
of play and pause events. -/
theorem C6_view_tracked_once (evs : List PlayerEvent) :
    (runSession true initialSession evs).2 = if PlayerEvent.play ∈ evs then 1 else 0 :=
  runSessionUntracked evs initialSession rfl

/-- C10: the player and the modal classify devices differently: with a
user agent that fails the mobile pattern but a viewport of at most 768
pixels, the player is mobile (so it picks the mobile preload strategy
and the mobile unknown-tier resolution) while the modal is desktop and
renders the desktop header. -/
theorem C10_device_class_divergence (userAgent : String) (innerWidth : Nat)
    (tier : String) (hua : mobileUserAgentTest userAgent = false)
    (hw : innerWidth ≤ 768) :
    checkMobile userAgent innerWidth = true
    ∧ modalIsMobile userAgent = false
    ∧ getPreloadStrategy (checkMobile userAgent innerWidth) tier = "metadata"
    ∧ getOptimalMaxResolution "unknown" (checkMobile userAgent innerWidth) = "720p"
    ∧ modalShowsDesktopHeader userAgent = true := by
  have hc : checkMobile userAgent innerWidth = true := by
    simp [checkMobile, hw]
  refine ⟨hc, hua, ?_, ?_, ?_⟩
  · rw [hc]
    unfold getPreloadStrategy
    by_cases h : tier = "slow-2g" ∨ tier = "2g" <;> simp [h]
  · rw [hc]
    decide
  · simp [modalShowsDesktopHeader, modalIsMobile, hua]

/-- C10 witness: a desktop user agent at viewport width 500 yields the
mobile configuration in the player and the desktop layout in the
modal. -/
theorem C10_device_class_divergence_witness :
    checkMobile "Mozilla/5.0 (Windows NT 10.0; Win64; x64)" 500 = true
    ∧ modalIsMobile "Mozilla/5.0 (Windows NT 10.0; Win64; x64)" = false
    ∧ getPreloadStrategy (checkMobile "Mozilla/5.0 (Windows NT 10.0; Win64; x64)" 500)
        "4g" = "metadata"
    ∧ modalShowsDesktopHeader "Mozilla/5.0 (Windows NT 10.0; Win64; x64)" = true := by
  have h := C10_device_class_divergence "Mozilla/5.0 (Windows NT 10.0; Win64; x64)"
    500 "4g" (by decide) (by decide)
  exact ⟨h.1, h.2.1, h.2.2.1, h.2.2.2.2⟩
